import Mathlib

/-!
Verification development for the pydantic-xlsx library (Python).

The Python sources are shallowly embedded: Python ints become `Int`/`Nat`,
Python strings become `String`, fallible Python code (code that can raise)
returns `Except PyErr _`.  Decimal strings produced by Python's number
formatting are embedded as digit lists (little endian, matching
`Nat.digits`).  Each definition carries a comment naming the Python
function of the repository it embeds.
-/

namespace PydanticXlsx

/-- Python exceptions that the embedded code can raise. -/
inductive PyErr where
  | valueError (msg : String)
  | typeError (msg : String)
  | attributeError (msg : String)
  | keyError (msg : String)
  deriving DecidableEq, Repr

/-! ## Money (src/pydantic_xlsx/types.py and money.py)

A `Money` subclass is determined by five class variables; we bundle them in
a `Currency` structure.  The `amount` attribute is an integer. -/

/-- The class variables of a `Money` subclass (types.py, class `Money`):
`minor_unit`, `code`, `code_before_amount`, `delimiter`,
`thousands_separator`. -/
structure Currency where
  minor_unit : ℕ
  code : String
  code_before_amount : Bool
  delimiter : String
  thousands_separator : String
  deriving DecidableEq, Repr

/-- money.py, class `Euro`. -/
def Euro : Currency :=
  { minor_unit := 2
    code := "€"
    code_before_amount := false
    delimiter := ","
    thousands_separator := "." }

/-- money.py, class `SwissFranc`. -/
def SwissFranc : Currency :=
  { minor_unit := 2
    code := "CHF"
    code_before_amount := false
    delimiter := "."
    thousands_separator := " " }

/-- money.py, class `UnitedStatesDollar`. -/
def UnitedStatesDollar : Currency :=
  { minor_unit := 2
    code := "$"
    code_before_amount := false
    delimiter := "."
    thousands_separator := "," }

/-- Round a rational to the nearest integer, ties to even.  CPython's fixed
point formatting of a float (`format(v, ".mf")` as used in
`Money.__init__`) is correctly rounded with respect to the exact rational
value of the IEEE-754 double `v`, resolving ties to even; so the digit
string it produces for `v` with `m` fractional digits denotes
`rhe (v * 10 ^ m) / 10 ^ m`. -/
def rhe (q : ℚ) : ℤ :=
  if q - ⌊q⌋ = 1 / 2 then (if ⌊q⌋ % 2 = 0 then ⌊q⌋ else ⌊q⌋ + 1) else round q

/-- Little-endian base-10 digits, by fuel-bounded structural recursion so
that the kernel can evaluate it; `digitsLE_eq` identifies it with
`Nat.digits 10`. -/
def digitsLEAux : ℕ → ℕ → List ℕ
  | _, 0 => []
  | 0, _ + 1 => []
  | f + 1, n + 1 => (n + 1) % 10 :: digitsLEAux f ((n + 1) / 10)

/-- Little-endian base-10 digits of a natural number (empty for `0`). -/
def digitsLE (n : ℕ) : List ℕ := digitsLEAux n n

/-- The little-endian digit list of the fractional part of the formatted
number: the digits of `a % 10 ^ m` padded (with leading zeros in print
order, i.e. trailing zeros little-endian) to exactly `m` digits, as
`format` prints with `m` decimals. -/
def fracDigitsPadded (a m : ℕ) : List ℕ :=
  digitsLE (a % 10 ^ m) ++
    List.replicate (m - (digitsLE (a % 10 ^ m)).length) 0

/-- `Money.__init__` (types.py lines 85-87), second statement:
`int(normalized.replace(".", ""))` where `normalized` is the fixed-point
rendering, with `m` decimals, of the integer `n = rhe (v * 10 ^ m)` scaled
down by `10 ^ m`.  Removing the decimal point from the rendered string and
parsing it back yields the sign of `n` applied to the concatenated digits
of `|n| / 10 ^ m` (integer part) and `|n| % 10 ^ m` (fractional part,
zero-padded to `m` digits). -/
def stripDotParse (n : ℤ) (m : ℕ) : ℤ :=
  (if n < 0 then -1 else 1) *
    ((Nat.ofDigits 10 (fracDigitsPadded n.natAbs m ++
      digitsLE (n.natAbs / 10 ^ m)) : ℕ) : ℤ)

/-- `Money.__init__` (types.py lines 85-87): format the input value `v`
with `minor_unit` decimals, drop the decimal point, parse as int.  `v` is
the exact rational value of the Python float input. -/
def moneyInitAmount (v : ℚ) (m : ℕ) : ℤ :=
  stripDotParse (rhe (v * 10 ^ m)) m

/-! ### Money display (`Money.__str__`, types.py lines 114-124) -/

/-- Little-endian decimal digits of a natural number, except that `0` is
printed as the single digit `0` (as Python prints it), while
`digitsLE 0 = []`. -/
def decimalDigits (a : ℕ) : List ℕ :=
  if a = 0 then [0] else digitsLE a

/-- Insert a group separator after every three digits (counted from the
right, i.e. from the head of the little-endian digit list), embedding the
grouping done by Python's format spec `,` in
`"{:,}".format(integer_amount)`.  The marker `none` stands for the
separator; `k` counts the digits still missing in the current group. -/
def group3Aux : ℕ → List ℕ → List (Option ℕ)
  | _, [] => []
  | 0, a :: rest => none :: some a :: group3Aux 2 rest
  | k + 1, a :: rest => some a :: group3Aux k rest

/-- Thousands grouping of a little-endian digit list. -/
def group3 (l : List ℕ) : List (Option ℕ) := group3Aux 3 l

/-- Render a little-endian grouped digit list to a (big-endian) string,
using `sep` for the group marker. -/
def renderGrouped (sep : String) (l : List (Option ℕ)) : String :=
  (l.reverse.map (fun d =>
    match d with
    | some d => String.mk [Nat.digitChar d]
    | none => sep)).foldl (· ++ ·) ""

/-- `"{:,}".format(n)` for a Python int `n`, with the comma already
replaced by `sep` (types.py lines 118-119 do the format and the
`.replace(",", self.thousands_separator)`). -/
def pyThousands (sep : String) (n : ℤ) : String :=
  (if n < 0 then "-" else "") ++ renderGrouped sep (group3 (decimalDigits n.natAbs))

/-- `"{1:0{0}d}".format(m, minor_amount)`: zero-pad a nonnegative int to
width `m` (types.py line 116). -/
def padZeros (m : ℕ) (a : ℕ) : String :=
  String.mk (List.replicate (m - (decimalDigits a).length) '0') ++
    String.mk ((decimalDigits a).reverse.map Nat.digitChar)

/-- `Money.__str__` (types.py lines 114-124), for a currency `c` and stored
integer `amount`:
`minor_amount = amount % 10 ^ minor_unit` (Python `%`, sign of the divisor,
embedded by `Int.emod` which Lean's `%` on `Int` denotes);
`minor` zero-padded to `minor_unit` digits;
`integer_amount = amount - minor_amount`;
thousands-grouped rendering of `integer_amount` with the comma replaced by
the currency's separator; then `integer ++ delimiter ++ minor` with the
code before or after per `code_before_amount`. -/
def moneyStr (c : Currency) (amount : ℤ) : String :=
  let minor_amount : ℤ := amount % ((10 : ℤ) ^ c.minor_unit)
  let minor := padZeros c.minor_unit minor_amount.toNat
  let integer_amount := amount - minor_amount
  let integer := pyThousands c.thousands_separator integer_amount
  let number := integer ++ c.delimiter ++ minor
  if c.code_before_amount then c.code ++ " " ++ number else number ++ " " ++ c.code

/-! ## Fields (src/pydantic_xlsx/fields.py) -/

/-- The slice of an openpyxl `Font` that the embedding tracks. -/
structure Font where
  name : Option String := none
  bold : Bool := false
  deriving DecidableEq, Repr

/-- The slice of an openpyxl `Alignment` that the embedding tracks. -/
structure Alignment where
  horizontal : Option String := none
  vertical : Option String := none
  deriving DecidableEq, Repr

/-- fields.py, class `XlsxFieldInfo`: pydantic field info extended with the
slots `font` and `number_format`. -/
structure XlsxFieldInfo where
  font : Option Font := none
  number_format : Option String := none
  deriving DecidableEq, Repr

/-- The `field_info` object attached to a pydantic field: either a plain
pydantic `FieldInfo` (which has no `font` / `number_format` attributes) or
an `XlsxFieldInfo` (which always has both attributes, possibly `None`). -/
inductive FieldInfoKind where
  | plain
  | xlsx (info : XlsxFieldInfo)
  deriving DecidableEq, Repr

/-- The field types the embedding distinguishes (the `type_` of a pydantic
field), as far as the `FieldTypeInfoFactory` cares: `Money` subclasses
versus everything else. -/
inductive FieldType where
  | money (c : Currency)
  | str
  | int
  | bool
  deriving DecidableEq, Repr

/-- `String` repeated `n` times (Python `s * n`). -/
def repeatStr (s : String) (n : ℕ) : String := String.join (List.replicate n s)

/-- `Money.number_format` (types.py lines 97-112). -/
def moneyNumberFormat (c : Currency) : String :=
  let decimal_seperation :=
    "#" ++ c.delimiter ++ repeatStr "#" c.minor_unit ++ "0." ++ repeatStr "0" c.minor_unit
  let amount :=
    if c.code_before_amount then c.code ++ " " ++ decimal_seperation
    else decimal_seperation ++ " " ++ c.code
  amount ++ ";[RED]-" ++ amount

/-- `FieldTypeInfoFactory.field_info_from_type` (fields.py lines 90-101):
`Money` subclasses derive an `XlsxFieldInfo` carrying only a
`number_format` (see `MoneyFieldInfo.field_info`, fields.py lines 71-73,
which passes no `font`, so the derived info's `font` is `None`); every
other type derives `None`. -/
def field_info_from_type : FieldType → Option XlsxFieldInfo
  | .money c => some { font := none, number_format := some (moneyNumberFormat c) }
  | _ => none

/-- Python `hasattr(field_info, "font")`. -/
def hasattrFont : FieldInfoKind → Bool
  | .plain => false
  | .xlsx _ => true

/-- The value of `field_info.font` when the attribute exists, `none`
otherwise; used only under `hasattrFont` to phrase the branch guards. -/
def fontAttr : FieldInfoKind → Option Font
  | .plain => none
  | .xlsx i => i.font

/-- Python attribute read `field_info.font`: raises `AttributeError` on a
plain pydantic `FieldInfo`. -/
def getattrFont : FieldInfoKind → Except PyErr (Option Font)
  | .plain => .error (.attributeError "FieldInfo object has no attribute font")
  | .xlsx i => .ok i.font

/-- The font cascade of `Composition.__apply_apperance`
(composition.py lines 152-162) for one column.  Arguments: the field's
`field_info`, the `field_type_info` derived by `FieldTypeInfoFactory`, and
the document-wide `self.config.font`.  Returns the column font that ends
up set (`none` when the branch chain leaves the column font unset).
Line 159 of the source assigns `column.font = field_info.font` (not
`field_type_info.font`) in the second branch; the embedding reproduces
that assignment via `getattrFont`. -/
def resolveColumnFont (field_info : FieldInfoKind)
    (field_type_info : Option XlsxFieldInfo) (docFont : Option Font) :
    Except PyErr (Option Font) :=
  if hasattrFont field_info && (fontAttr field_info).isSome then
    .ok (fontAttr field_info)
  else if (field_type_info.map (fun t => t.font.isSome)).getD false then
    getattrFont field_info
  else if docFont.isSome then
    .ok docFont
  else
    .ok none

/-! ## Config (src/pydantic_xlsx/config.py) -/

/-- config.py, class `XlsxConfig`; the structure defaults are the class
attribute defaults of the source. -/
structure XlsxConfig where
  header_font : Option Font := some { name := some "Arial", bold := true }
  font : Option Font := none
  header_alignment : Option Alignment := none
  freeze_cell : Option String := some "A2"
  ignore_additional_columns : Bool := false
  disable_width_calculation : Bool := false
  print_horizontal_centered : Bool := true
  print_vertical_centered : Bool := true
  print_title_columns : Option String := none
  print_title_rows : Option String := none
  deriving DecidableEq, Repr

/-- Is a character an upper-case column letter? -/
def isColLetter (ch : Char) : Bool := 'A' ≤ ch && ch ≤ 'Z'

/-- The column-letter part of an openpyxl coordinate string such as
`"B2"` (first component of `coordinate_from_string`). -/
def coordLetters (s : String) : String := String.mk (s.toList.takeWhile isColLetter)

/-- The row part of an openpyxl coordinate string such as `"B2"` (second
component of `coordinate_from_string`). -/
def coordRow (s : String) : ℕ :=
  (s.toList.dropWhile isColLetter).foldl (fun acc ch => acc * 10 + (ch.toNat - 48)) 0

/-- openpyxl `column_index_from_string`: bijective base-26 value of a
column letter string (`"A"` is 1). -/
def column_index_from_string (s : String) : ℕ :=
  s.toList.foldl (fun acc ch => acc * 26 + (ch.toNat - 64)) 0

/-- openpyxl `get_column_letter`, fuel-bounded: repeatedly take
`divmod(col - 1, 26)` and emit `chr(65 + rem)`. -/
def columnLetterAux : ℕ → ℕ → List Char
  | _, 0 => []
  | 0, _ + 1 => []
  | f + 1, n + 1 => columnLetterAux f (n / 26) ++ [Char.ofNat (65 + n % 26)]

/-- openpyxl `get_column_letter` (the inverse of
`column_index_from_string`). -/
def get_column_letter (n : ℕ) : String := String.mk (columnLetterAux n n)

/-- `XlsxConfig._print_title_columns` (config.py lines 79-90).  Note that
the source consults only `cls.freeze_cell`; the configured
`print_title_columns` attribute is never read here. -/
def XlsxConfig.calcPrintTitleColumns (c : XlsxConfig) : Option String :=
  match c.freeze_cell with
  | none => none
  | some cell =>
    let freeze_column := coordLetters cell
    let max_column_num := column_index_from_string freeze_column - 1
    if max_column_num = 0 then none
    else some ("A:" ++ get_column_letter max_column_num)

/-- `XlsxConfig._print_title_rows` (config.py lines 92-102): the configured
`print_title_rows` attribute, when not `None`, is returned as is;
otherwise the range is derived from `freeze_cell`. -/
def XlsxConfig.calcPrintTitleRows (c : XlsxConfig) : Option String :=
  match c.print_title_rows with
  | some s => some s
  | none =>
    match c.freeze_cell with
    | none => none
    | some cell =>
      let freeze_row := coordRow cell - 1
      if freeze_row = 0 then none
      else some ("1:" ++ Nat.repr freeze_row)

/-! ## Model (src/pydantic_xlsx/model.py) -/

/-- The origin of a pydantic field's outer type:
`getattr(prop.outer_type_, "__origin__", None)` is `list`, `dict`, or
absent (`None`, for plain types). -/
inductive TypeOrigin where
  | list
  | dict
  | plain
  deriving DecidableEq, Repr

/-- A pydantic `ModelField` as far as this embedding needs it: declared
name, external alias, the outer type's origin, whether the inner `type_`
has `XlsxModel` among its bases, the inner `type_` for the registry, and
its `field_info`. -/
structure PyField where
  name : String
  alias_ : String
  outer_origin : TypeOrigin := .plain
  inner_is_xlsx_model : Bool := false
  field_type : FieldType := .str
  field_info : FieldInfoKind := .plain
  deriving DecidableEq, Repr

/-- `XlsxModel._property_keys` (model.py lines 64-67): the aliases of the
model's fields, in declaration order. -/
def _property_keys (fields : List PyField) : List String := fields.map (·.alias_)

/-- `getattr(cls.__config__, "ignore_additional_rows", None)` as evaluated
in `XlsxModel._ignore_key` (model.py line 77).  config.py declares no
attribute named `ignore_additional_rows` — the declared option (line 41)
is `ignore_additional_columns` — so the lookup falls back to its default
`None` for every config. -/
def getattrIgnoreAdditionalRows (_c : XlsxConfig) : Option Bool := none

/-- A value a worksheet cell can hold on import. -/
inductive CellValue where
  | str (s : String)
  | int (n : ℤ)
  | bool (b : Bool)
  | pynone
  deriving DecidableEq, Repr

/-- `XlsxModel._ignore_key` (model.py lines 69-82): `True` means the
column is dropped from the import mapping. -/
def _ignore_key (c : XlsxConfig) (fields : List PyField) (key : Option String) : Bool :=
  match getattrIgnoreAdditionalRows c with
  | some false => false
  | _ =>
    match key with
    | none => true
    | some k => !((_property_keys fields).contains k)

/-- The row-mapping loop of `SingleModelComposition.workbook_to_model`
(composition.py lines 268-273): pair each header cell with the data cell
in its column and keep the pair unless `_ignore_key` says to drop it.  The
resulting association list is what `parse_obj` receives for the row. -/
def rowEntry (c : XlsxConfig) (fields : List PyField)
    (header : List (Option String)) (row : List CellValue) :
    List (Option String × CellValue) :=
  (header.zip row).filter (fun p => !(_ignore_key c fields p.1))

/-! ## Compositions (src/pydantic_xlsx/composition.py) -/

/-- An `XlsxModel` instance as a sheet row: its `__fields__` and its
`.dict()` (field name to cell value). -/
structure Model where
  fields : List PyField
  row : List (String × CellValue)
  deriving DecidableEq, Repr

/-- A value stored in a model's `__dict__` for one top-level field: a
plain cell value (scalar fields such as `str`), a nested `XlsxModel`
instance, or a list of `XlsxModel` instances. -/
inductive PyValue where
  | cell (c : CellValue)
  | inst (m : Model)
  | listOf (l : List Model)
  deriving DecidableEq, Repr

/-- A top-level model under the collection composition: each field paired
with the value `model.__dict__[name]` holds for it. -/
structure CollectionModel where
  fields : List (PyField × PyValue)
  deriving DecidableEq, Repr

/-- The `Composition` state after a successful `__init__`
(composition.py lines 48-71). -/
structure Composition where
  data : List Model
  title : String
  config : XlsxConfig
  deriving DecidableEq, Repr

/-- Python `len(data)` for the values `Composition.__init__` can receive:
defined for strings and lists; `int`, `bool`, `None` and pydantic model
instances have no `__len__` and raise `TypeError`. -/
def pyLen : PyValue → Except PyErr ℕ
  | .cell (.str s) => .ok s.length
  | .cell _ => .error (.typeError "object has no len")
  | .inst _ => .error (.typeError "object of type Model has no len")
  | .listOf l => .ok l.length

/-- The `ValueError` message of composition.py lines 59-62 (with the title
interpolated). -/
def emptySheetMsg (title : String) : String :=
  "cannot create the " ++ title ++ " sheet, at least one entry is needed. " ++
    "This error also can occurs when using aliases for model collections " ++
    "without setting allow_population_by_field_name to True."

/-- `Composition.__init__` (composition.py lines 52-71) applied to an
arbitrary attribute value, as `CollectionComposition.sheets_from_model`
does: first `len(data) < 1` is evaluated (raising `TypeError` for values
without `__len__`), then each element of `data` is iterated and its
`__fields__` accessed (iterating a string yields characters, which have no
`__fields__` and raise `AttributeError`); only a list of models can reach
the final assignment. -/
def initAny (v : PyValue) (title : String) (config : XlsxConfig) :
    Except PyErr Composition :=
  match pyLen v with
  | .error e => .error e
  | .ok n =>
    if n < 1 then .error (.valueError (emptySheetMsg title))
    else
      match v with
      | .listOf l =>
        if l.any (fun m => m.fields.length = 0) then
          .error (.valueError "Model has not got any properties")
        else .ok { data := l, title := title, config := config }
      | .cell (.str _) =>
        .error (.attributeError "str object has no attribute fields")
      | _ => .error (.typeError "unreachable")

/-- `Composition.__init__` on its annotated type `List[XlsxModel]`
(the call shape of `SingleModelComposition` / `RootCollectionComposition`,
composition.py lines 259 and 293). -/
def Composition.init (data : List Model) (title : String) (config : XlsxConfig) :
    Except PyErr Composition :=
  initAny (.listOf data) title config

/-- `CollectionComposition.sheets_from_model` (composition.py lines
321-332): one batch per top-level field, built from `model.__dict__[key]`
and titled `field.alias`; the loop stops at the first raising
constructor. -/
def sheets_from_model (m : CollectionModel) (config : XlsxConfig) :
    Except PyErr (List Composition) :=
  m.fields.mapM (fun fv => initAny fv.2 fv.1.alias_ config)

/-- The three composition strategies of the factory. -/
inductive Strategy where
  | rootCollection
  | collection
  | singleModel
  deriving DecidableEq, Repr

/-- The field loop of `CompositionFactory.from_model` (composition.py
lines 369-382): accumulate `contains_list_of_models`, raising
`TypeError` at the first `Dict`-origin field that is not a
list-of-models. -/
def scanFields : List PyField → Bool → Except PyErr Bool
  | [], acc => .ok acc
  | f :: rest, acc =>
    if f.outer_origin = .list && f.inner_is_xlsx_model then scanFields rest true
    else if f.outer_origin = .dict then
      .error (.typeError "Dicts currently not supported")
    else scanFields rest acc

/-- `CompositionFactory.from_model` (composition.py lines 363-391). -/
def from_model (fields : List PyField) : Except PyErr Strategy :=
  match scanFields fields false with
  | .error e => .error e
  | .ok contains_list_of_models =>
    if (fields.any (fun f => f.name = "__root__")) && contains_list_of_models then
      .ok .rootCollection
    else if contains_list_of_models then .ok .collection
    else .ok .singleModel

/-- Python `entry_dict[key]` on a `.dict()` association list (`none` when
the key is absent; the rows handed to `__calc_column_widths` are
instances of one model class, so every key of `data[0]` is present in
every row). -/
def dictGet (d : List (String × CellValue)) (k : String) : Option CellValue :=
  (d.find? (fun p => p.1 = k)).map (fun p => p.2)

/-- The inner loop of `Composition.__calc_column_widths`
(composition.py lines 207-213) for one key: starting from `0`, replace
the running maximum by the length of each `str`-valued cell that exceeds
it; non-`str` values are skipped by the `isinstance` guard. -/
def maxStrLenForKey (data : List Model) (key : String) : ℕ :=
  data.foldl
    (fun acc entry =>
      match dictGet entry.row key with
      | some (.str s) => if s.length > acc then s.length else acc
      | _ => acc)
    0

/-- `math.ceil(length * 0.93)` (composition.py line 216) in exact
arithmetic.  The IEEE double nearest to the literal `0.93` exceeds
`93 / 100` by less than `5 · 10 ^ (-18)` relatively, so for every cell
length representable in a spreadsheet the ceiling of the product equals
`⌈93 · length / 100⌉`, which over `ℕ` is `(93 * length + 99) / 100`. -/
def ceil93 (length : ℕ) : ℕ := (93 * length + 99) / 100

/-- `Composition.__calc_column_widths` (composition.py lines 200-220):
one width per key of `data[0].__fields__`, in order. -/
def calc_column_widths (data : List Model) : List ℕ :=
  let keys : List String :=
    match data with
    | [] => []
    | m :: _ => m.fields.map (fun f => f.name)
  keys.map (fun key =>
    let value := maxStrLenForKey data key
    if ceil93 value > 5 then ceil93 value else 5)

/-- Python `model.__fields__[key]` : the fields mapping is keyed by
declared field name; a miss raises `KeyError`. -/
def fieldsDictGet (fields : List PyField) (key : String) : Except PyErr PyField :=
  match fields.find? (fun q => q.name = key) with
  | some q => .ok q
  | none => .error (.keyError key)

/-- The type-resolution part of `CollectionComposition.workbook_to_model`
(composition.py lines 342-345): for each field `prop`, in order, read
`model.__fields__[prop.alias_].type_` (the fields mapping is keyed by
declared name, the index is the alias), stopping at the first
`KeyError`. -/
def resolveSheetTypesAux (all : List PyField) :
    List PyField → Except PyErr (List (String × FieldType))
  | [] => .ok []
  | p :: rest =>
    match fieldsDictGet all p.alias_ with
    | .error e => .error e
    | .ok q =>
      match resolveSheetTypesAux all rest with
      | .error e => .error e
      | .ok tail => .ok ((p.alias_, q.field_type) :: tail)

/-- Resolve the nested model type of every top-level field of a
multi-sheet model, as the import loop does. -/
def resolveSheetTypes (fields : List PyField) :
    Except PyErr (List (String × FieldType)) :=
  resolveSheetTypesAux fields fields

instance {ε α : Type} [DecidableEq ε] [DecidableEq α] :
    DecidableEq (Except ε α) := fun a b =>
  match a, b with
  | .error a, .error b => decidable_of_iff (a = b) (by simp)
  | .error _, .ok _ => isFalse (by simp)
  | .ok _, .error _ => isFalse (by simp)
  | .ok a, .ok b => decidable_of_iff (a = b) (by simp)

/-! ### Concrete sample schemas used by the closed theorems -/

/-- A bare `__root__` field holding a list of nested records. -/
def rootField : PyField :=
  { name := "__root__", alias_ := "__root__", outer_origin := .list,
    inner_is_xlsx_model := true }

/-- A list-of-nested-records field `items : List[Item]`. -/
def itemsField : PyField :=
  { name := "items", alias_ := "items", outer_origin := .list,
    inner_is_xlsx_model := true }

/-- A scalar string field `title : str`. -/
def titleField : PyField := { name := "title", alias_ := "title" }

/-- A dict-typed field `m : Dict[str, Item]`. -/
def dictField : PyField := { name := "m", alias_ := "m", outer_origin := .dict }

/-- A scalar string field `name : str`. -/
def nameField : PyField := { name := "name", alias_ := "name" }

/-- An `Item` record instance with the single field `name = "Hammer"`. -/
def itemModel : Model := { fields := [nameField], row := [("name", .str "Hammer")] }

/-- A record instance whose single string cell has length 10. -/
def helloModel : Model :=
  { fields := [nameField], row := [("name", .str "HelloWorld")] }

/-- The parent instance `{title = "foo", items = [itemModel]}` of the
multi-sheet schema `{title : str, items : List[Item]}`. -/
def scalarParent : CollectionModel :=
  { fields := [(titleField, PyValue.cell (.str "foo")),
               (itemsField, PyValue.listOf [itemModel])] }

/-- The openpyxl font `Font(name="Arial")`. -/
def arialFont : Font := { name := some "Arial", bold := false }

/-- A document-wide font for the cascade tests. -/
def docWideFont : Font := { name := some "Doc", bold := false }

/-- A hypothetical type-derived `XlsxFieldInfo` that carries a font, to
instantiate the second branch of the cascade. -/
def arialTypeInfo : XlsxFieldInfo := { font := some arialFont, number_format := none }

/-- The width contribution of one row to one column: the character length
for a `str` cell, `0` otherwise (the `isinstance` guard of
composition.py line 210 skips non-strings). -/
def strContribution (entry : Model) (key : String) : ℕ :=
  match dictGet entry.row key with
  | some (.str s) => s.length
  | _ => 0

/-! ## Helper lemmas -/

theorem digitsLEAux_eq : ∀ f n, n ≤ f → digitsLEAux f n = Nat.digits 10 n
  | f, 0, _ => by cases f <;> simp [digitsLEAux]
  | 0, n + 1, h => absurd h (by omega)
  | f + 1, n + 1, h => by
    rw [digitsLEAux, Nat.digits_def' (b := 10) (by norm_num) (Nat.succ_pos n),
      digitsLEAux_eq f ((n + 1) / 10) (by omega)]

theorem digitsLE_eq (n : ℕ) : digitsLE n = Nat.digits 10 n :=
  digitsLEAux_eq n n le_rfl

theorem ofDigits_replicate_zero (b k : ℕ) :
    Nat.ofDigits b (List.replicate k 0) = 0 := by
  induction k with
  | zero => simp [Nat.ofDigits]
  | succ k ih => simp [List.replicate_succ, Nat.ofDigits_cons, ih]

theorem digitsLE_len_le (x m : ℕ) (h : x < 10 ^ m) : (digitsLE x).length ≤ m := by
  rcases Nat.eq_zero_or_pos x with rfl | hx
  · simp [digitsLE_eq]
  · rw [digitsLE_eq, Nat.digits_len 10 x (by norm_num) hx.ne']
    have := Nat.log_lt_of_lt_pow hx.ne' h
    omega

theorem fracDigitsPadded_length (a m : ℕ) : (fracDigitsPadded a m).length = m := by
  have h : a % 10 ^ m < 10 ^ m := Nat.mod_lt _ (pow_pos (by norm_num) m)
  have hle := digitsLE_len_le _ _ h
  simp only [fracDigitsPadded, List.length_append, List.length_replicate]
  omega

theorem ofDigits_fracDigitsPadded (a m : ℕ) :
    Nat.ofDigits 10 (fracDigitsPadded a m) = a % 10 ^ m := by
  rw [fracDigitsPadded, Nat.ofDigits_append, ofDigits_replicate_zero, digitsLE_eq,
    Nat.ofDigits_digits]
  ring

theorem stripDotParse_eq (n : ℤ) (m : ℕ) : stripDotParse n m = n := by
  rw [stripDotParse, Nat.ofDigits_append, ofDigits_fracDigitsPadded,
    fracDigitsPadded_length, digitsLE_eq, Nat.ofDigits_digits]
  have h : n.natAbs % 10 ^ m + 10 ^ m * (n.natAbs / 10 ^ m) = n.natAbs :=
    Nat.mod_add_div _ _
  rw [h]
  split <;> omega

theorem widthStep_eq (key : String) (acc : ℕ) (entry : Model) :
    (match dictGet entry.row key with
      | some (.str s) => if s.length > acc then s.length else acc
      | _ => acc) = max acc (strContribution entry key) := by
  rw [strContribution]
  rcases dictGet entry.row key with _ | c
  · simp
  · cases c with
    | str s => simp only [gt_iff_lt]; split <;> omega
    | int n => simp
    | bool b => simp
    | pynone => simp

theorem maxStrLen_eq_foldMax (data : List Model) (key : String) :
    maxStrLenForKey data key =
      data.foldl (fun acc e => max acc (strContribution e key)) 0 := by
  rw [maxStrLenForKey]
  congr 1
  funext acc entry
  exact widthStep_eq key acc entry

theorem foldMax_acc (data : List Model) (key : String) (a : ℕ) :
    data.foldl (fun acc e => max acc (strContribution e key)) a =
      max a (data.foldl (fun acc e => max acc (strContribution e key)) 0) := by
  induction data generalizing a with
  | nil => simp
  | cons e t ih =>
    simp only [List.foldl_cons]
    rw [ih (max a (strContribution e key)), ih (max 0 (strContribution e key))]
    omega

theorem le_maxStrLen (data : List Model) (key : String) (entry : Model)
    (s : String) (he : entry ∈ data) (hs : dictGet entry.row key = some (.str s)) :
    s.length ≤ maxStrLenForKey data key := by
  rw [maxStrLen_eq_foldMax]
  induction data with
  | nil => cases he
  | cons e t ih =>
    simp only [List.foldl_cons]
    rw [foldMax_acc]
    rcases List.mem_cons.mp he with rfl | ht
    · have : strContribution entry key = s.length := by
        simp [strContribution, hs]
      omega
    · have := ih ht
      omega

theorem maxStrLen_attained (data : List Model) (key : String) :
    maxStrLenForKey data key = 0 ∨
      ∃ entry ∈ data, ∃ s, dictGet entry.row key = some (.str s) ∧
        s.length = maxStrLenForKey data key := by
  rw [maxStrLen_eq_foldMax]
  induction data with
  | nil => left; rfl
  | cons e t ih =>
    simp only [List.foldl_cons]
    rw [foldMax_acc]
    rcases max_choice (max 0 (strContribution e key))
        (t.foldl (fun acc x => max acc (strContribution x key)) 0) with hm | hm
    · rw [hm]
      rcases hc : dictGet e.row key with _ | c
      · left; rw [strContribution, hc]; rfl
      · cases c with
        | str s =>
          right
          refine ⟨e, List.mem_cons_self e t, s, hc, ?_⟩
          simp [strContribution, hc]
        | int n => left; rw [strContribution, hc]; rfl
        | bool b => left; rw [strContribution, hc]; rfl
        | pynone => left; rw [strContribution, hc]; rfl
    · rw [hm]
      rcases ih with h0 | ⟨entry, hmem, s, hd, hlen⟩
      · left; exact h0
      · right; exact ⟨entry, List.mem_cons_of_mem e hmem, s, hd, hlen⟩

theorem scanFields_no_dict (fields : List PyField) (acc : Bool)
    (h : ∀ f ∈ fields, f.outer_origin ≠ TypeOrigin.dict) :
    scanFields fields acc =
      .ok (acc || fields.any (fun f => f.outer_origin = TypeOrigin.list
        && f.inner_is_xlsx_model)) := by
  induction fields generalizing acc with
  | nil => simp [scanFields]
  | cons f rest ih =>
    rw [scanFields]
    by_cases hc : (f.outer_origin = TypeOrigin.list && f.inner_is_xlsx_model) = true
    · rw [if_pos hc, ih true (fun g hg => h g (List.mem_cons_of_mem f hg))]
      simp [hc]
    · rw [if_neg hc, if_neg (by simpa using h f (List.mem_cons_self f rest)),
        ih acc (fun g hg => h g (List.mem_cons_of_mem f hg))]
      simp only [List.any_cons]
      rw [Bool.eq_false_iff.mpr hc]
      simp

theorem scanFields_dict (fields : List PyField) (acc : Bool)
    (h : ∃ f ∈ fields, f.outer_origin = TypeOrigin.dict) :
    scanFields fields acc = .error (.typeError "Dicts currently not supported") := by
  induction fields generalizing acc with
  | nil => simp at h
  | cons f rest ih =>
    rw [scanFields]
    by_cases hf : f.outer_origin = TypeOrigin.dict
    · rw [if_neg (by simp [hf]), if_pos hf]
    · have hrest : ∃ g ∈ rest, g.outer_origin = TypeOrigin.dict := by
        rcases h with ⟨g, hg, hgd⟩
        rcases List.mem_cons.mp hg with rfl | hgr
        · exact absurd hgd hf
        · exact ⟨g, hgr, hgd⟩
      by_cases hc : (f.outer_origin = TypeOrigin.list && f.inner_is_xlsx_model) = true
      · rw [if_pos hc]
        exact ih true hrest
      · rw [if_neg hc, if_neg hf]
        exact ih acc hrest

theorem fieldsDictGet_ok_iff (all : List PyField) (k : String) :
    (∃ q, fieldsDictGet all k = .ok q) ↔ ∃ q ∈ all, q.name = k := by
  constructor
  · rintro ⟨q, hq⟩
    cases hfind : all.find? (fun r => r.name = k) with
    | none => rw [fieldsDictGet, hfind] at hq; simp at hq
    | some r =>
      rw [fieldsDictGet, hfind] at hq
      exact ⟨r, List.mem_of_find?_eq_some hfind, by simpa using List.find?_some hfind⟩
  · rintro ⟨q, hq, hk⟩
    have hsome : (all.find? (fun r => r.name = k)).isSome :=
      List.find?_isSome.mpr ⟨q, hq, by simpa⟩
    rcases Option.isSome_iff_exists.mp hsome with ⟨r, hr⟩
    exact ⟨r, by rw [fieldsDictGet, hr]⟩

theorem resolveAux_ok_iff (all l : List PyField) :
    (∃ r, resolveSheetTypesAux all l = .ok r) ↔
      ∀ f ∈ l, ∃ q ∈ all, q.name = f.alias_ := by
  induction l with
  | nil => simp [resolveSheetTypesAux]
  | cons p rest ih =>
    rw [resolveSheetTypesAux]
    constructor
    · rintro ⟨r, hr⟩
      cases hfd : fieldsDictGet all p.alias_ with
      | error e => rw [hfd] at hr; simp at hr
      | ok q =>
        rw [hfd] at hr
        cases haux : resolveSheetTypesAux all rest with
        | error e => rw [haux] at hr; simp at hr
        | ok tail =>
          intro f hf
          rcases List.mem_cons.mp hf with rfl | hfr
          · exact (fieldsDictGet_ok_iff all f.alias_).mp ⟨q, hfd⟩
          · exact (ih.mp ⟨tail, haux⟩) f hfr
    · intro hall
      rcases (fieldsDictGet_ok_iff all p.alias_).mpr
          (hall p (List.mem_cons_self p rest)) with ⟨q, hq⟩
      rcases ih.mpr (fun f hf => hall f (List.mem_cons_of_mem p hf)) with ⟨tail, htail⟩
      exact ⟨(p.alias_, q.field_type) :: tail, by rw [hq, htail]⟩

theorem resolveAux_error_shape (all l : List PyField) (e : PyErr)
    (h : resolveSheetTypesAux all l = .error e) : ∃ k, e = .keyError k := by
  induction l with
  | nil => simp [resolveSheetTypesAux] at h
  | cons p rest ih =>
    rw [resolveSheetTypesAux] at h
    cases hfd : fieldsDictGet all p.alias_ with
    | error e2 =>
      rw [hfd] at h
      rw [fieldsDictGet] at hfd
      cases hfind : all.find? (fun q => q.name = p.alias_) with
      | none =>
        rw [hfind] at hfd
        refine ⟨p.alias_, ?_⟩
        injection h with h1
        injection hfd with h2
        rw [← h1, ← h2]
      | some q => rw [hfind] at hfd; simp at hfd
    | ok q =>
      rw [hfd] at h
      cases haux : resolveSheetTypesAux all rest with
      | error e2 =>
        rw [haux] at h
        injection h with h1
        exact ih (h1 ▸ haux)
      | ok tail => rw [haux] at h; simp at h

theorem find_self_of_nodup (all : List PyField)
    (hnd : (all.map (fun f => f.name)).Nodup) (p : PyField) (hp : p ∈ all) :
    all.find? (fun q => q.name = p.name) = some p := by
  induction all with
  | nil => cases hp
  | cons a t ih =>
    rw [List.map_cons, List.nodup_cons] at hnd
    rcases List.mem_cons.mp hp with rfl | hpt
    · exact List.find?_cons_of_pos _ (by simp)
    · have hne : ¬(a.name = p.name) := by
        intro hEq
        exact hnd.1 (hEq ▸ List.mem_map_of_mem (fun f => f.name) hpt)
      rw [List.find?_cons_of_neg _ (by simpa using hne)]
      exact ih hnd.2 hpt

theorem resolveAux_id (all : List PyField)
    (hnd : (all.map (fun f => f.name)).Nodup)
    (halias : ∀ f ∈ all, f.alias_ = f.name) :
    ∀ l, (∀ f ∈ l, f ∈ all) →
      resolveSheetTypesAux all l = .ok (l.map (fun f => (f.alias_, f.field_type))) := by
  intro l
  induction l with
  | nil => intro _; simp [resolveSheetTypesAux]
  | cons p rest ih =>
    intro hsub
    have hp : p ∈ all := hsub p (List.mem_cons_self p rest)
    have hfd : fieldsDictGet all p.alias_ = .ok p := by
      rw [fieldsDictGet, halias p hp, find_self_of_nodup all hnd p hp]
    rw [resolveSheetTypesAux, hfd,
      ih (fun f hf => hsub f (List.mem_cons_of_mem p hf))]
    rfl

/-! ## Claim theorems -/

/-- C1: the claim says that a column whose field has no field-level font
but whose type-derived info carries a font receives the type-derived font.
The code (composition.py line 159) assigns `field_info.font` in that
branch instead: on a plain pydantic field info the attribute read raises
`AttributeError`, and on an `XlsxField` without font the column font is
set to `None` — never to the type-derived font, even when a document-wide
font exists. -/
theorem apply_apperance_font_priority :
    resolveColumnFont FieldInfoKind.plain (some arialTypeInfo) none =
      .error (.attributeError "FieldInfo object has no attribute font") ∧
    resolveColumnFont (FieldInfoKind.xlsx { font := none, number_format := none })
      (some arialTypeInfo) (some docWideFont) = .ok none ∧
    (resolveColumnFont (FieldInfoKind.xlsx { font := none, number_format := none })
        (some arialTypeInfo) (some docWideFont) ==
      (Except.ok (some arialFont) : Except PyErr (Option Font))) = false := by
  decide

/-- C2: the claim says unknown header columns are dropped if and only if
`ignore_additional_columns` is enabled, and kept under the default
(disabled) flag.  The code (model.py line 77) reads the nonexistent
attribute `ignore_additional_rows`, so the keep branch is unreachable:
with the default config (flag disabled) the unknown key `"unknown"` is
still dropped from the row mapping. -/
theorem ignore_key_drops_unknown_columns :
    ({ } : XlsxConfig).ignore_additional_columns = false ∧
    _ignore_key { } [nameField] (some "unknown") = true ∧
    rowEntry { } [nameField] [some "name", some "unknown"]
        [CellValue.str "Max", CellValue.str "x"] =
      [(some "name", CellValue.str "Max")] := by
  decide

/-- C3: the claim says `display()` renders the major-unit quantity
(`amount / 10 ^ minor_unit`, grouped) before the delimiter, so Euro
amount `1235` displays as `12,35 €`.  The code (types.py line 117) uses
`integer_amount = amount - minor_amount` — `1200`, not `12` — so it
renders `1.200,35 €`. -/
theorem money_str_display :
    moneyStr Euro 1235 = "1.200,35 €" ∧ (moneyStr Euro 1235 == "12,35 €") = false := by
  decide

/-- C4: `Money.__init__` stores `amount = round(v * 10 ^ minor_unit)`
under the formatting rounding policy (correctly rounded, ties to even,
with respect to the exact rational value `v` of the input double), and in
particular the Python float literal `12.345` — whose exact value is
`6949617174986097 / 2 ^ 49`, slightly above `12.345` — with
`minor_unit = 2` yields `amount = 1235`. -/
theorem money_init_amount_spec :
    (∀ (v : ℚ) (m : ℕ), moneyInitAmount v m = rhe (v * 10 ^ m)) ∧
    moneyInitAmount ((6949617174986097 : ℚ) / 562949953421312) 2 = 1235 := by
  constructor
  · intro v m
    rw [moneyInitAmount, stripDotParse_eq]
  · rw [moneyInitAmount, stripDotParse_eq, rhe, if_neg]
    · rw [round_eq]
      norm_num
    · norm_num

/-- C5: the claim says an explicitly configured `print_title_columns`
overrides the freeze-cell derivation, with `""` disabling the feature.
`_print_title_columns` (config.py lines 79-90) never reads the configured
attribute: with `freeze_cell = "B2"` the computed range is `"A:A"` no
matter whether `print_title_columns` is `""` or `"A:C"`.  The rows
counterpart does honour its override (config.py line 94). -/
theorem print_title_columns_config :
    XlsxConfig.calcPrintTitleColumns
        { freeze_cell := some "B2", print_title_columns := some "" } = some "A:A" ∧
    XlsxConfig.calcPrintTitleColumns
        { freeze_cell := some "B2", print_title_columns := some "A:C" } = some "A:A" ∧
    XlsxConfig.calcPrintTitleRows
        { freeze_cell := some "B2", print_title_rows := some "" } = some "" := by
  decide

/-- C6: `CompositionFactory.from_model` is a function of the schema's
field list alone: a single bare `__root__` list-of-records field yields
the root-collection strategy; any list-of-records field with no
`__root__` field (and no dict field) yields the collection strategy; no
list-of-records field (and no dict field) yields the single-model
strategy; and any `Dict`-origin field raises `TypeError` regardless of
the other fields. -/
theorem composition_factory_classification :
    (∀ f : PyField, f.name = "__root__" → f.outer_origin = TypeOrigin.list →
      f.inner_is_xlsx_model = true → from_model [f] = .ok .rootCollection) ∧
    (∀ fields : List PyField,
      (∃ f ∈ fields, f.outer_origin = TypeOrigin.list ∧ f.inner_is_xlsx_model = true) →
      (∀ f ∈ fields, f.name ≠ "__root__") →
      (∀ f ∈ fields, f.outer_origin ≠ TypeOrigin.dict) →
      from_model fields = .ok .collection) ∧
    (∀ fields : List PyField,
      (∀ f ∈ fields, ¬(f.outer_origin = TypeOrigin.list ∧ f.inner_is_xlsx_model = true)) →
      (∀ f ∈ fields, f.outer_origin ≠ TypeOrigin.dict) →
      from_model fields = .ok .singleModel) ∧
    (∀ fields : List PyField,
      (∃ f ∈ fields, f.outer_origin = TypeOrigin.dict) →
      from_model fields = .error (.typeError "Dicts currently not supported")) := by
  refine ⟨?_, ?_, ?_, ?_⟩
  · intro f h1 h2 h3
    rw [from_model, scanFields_no_dict _ _ (by
      intro g hg
      rw [List.mem_singleton.mp hg, h2]
      simp)]
    simp [h1, h2, h3]
  · intro fields hex hroot hnd
    rw [from_model, scanFields_no_dict _ _ hnd]
    have hany : fields.any
        (fun f => f.outer_origin = TypeOrigin.list && f.inner_is_xlsx_model) = true := by
      rcases hex with ⟨f, hf, h1, h2⟩
      exact List.any_eq_true.mpr ⟨f, hf, by simp [h1, h2]⟩
    have hroot2 : fields.any (fun f => f.name = "__root__") = false := by
      rw [List.any_eq_false]
      intro f hf
      simpa using hroot f hf
    simp [hany, hroot2]
  · intro fields hnone hnd
    rw [from_model, scanFields_no_dict _ _ hnd]
    have hany : fields.any
        (fun f => f.outer_origin = TypeOrigin.list && f.inner_is_xlsx_model) = false := by
      rw [List.any_eq_false]
      intro f hf
      simpa using hnone f hf
    simp [hany]
  · intro fields hex
    rw [from_model, scanFields_dict _ _ hex]

/-- Closed witness for the classification theorem: a bare root collection,
a collection schema, a scalar-only schema and a dict schema, each
classified through `composition_factory_classification`. -/
theorem composition_factory_classification_witness :
    from_model [rootField] = .ok .rootCollection ∧
    from_model [itemsField, titleField] = .ok .collection ∧
    from_model [titleField] = .ok .singleModel ∧
    from_model [dictField, itemsField] =
      .error (.typeError "Dicts currently not supported") := by
  refine ⟨?_, ?_, ?_, ?_⟩
  · exact composition_factory_classification.1 _ rfl rfl rfl
  · exact composition_factory_classification.2.1 _ (by decide) (by decide) (by decide)
  · exact composition_factory_classification.2.2.1 _ (by decide) (by decide)
  · exact composition_factory_classification.2.2.2 _ (by decide)

/-- C7: `Composition.__init__` on a list of records raises exactly when
the list is empty or some record has zero fields, and otherwise stores
its three arguments unchanged. -/
theorem composition_init_spec (data : List Model) (title : String)
    (config : XlsxConfig) :
    ((∃ e, Composition.init data title config = .error e) ↔
      data = [] ∨ ∃ m ∈ data, m.fields = []) ∧
    (∀ comp, Composition.init data title config = .ok comp →
      comp.data = data ∧ comp.title = title ∧ comp.config = config) := by
  rw [Composition.init, initAny]
  simp only [pyLen]
  constructor
  · constructor
    · rintro ⟨e, he⟩
      by_cases h1 : data.length < 1
      · left
        exact List.length_eq_zero.mp (by omega)
      · rw [if_neg h1] at he
        by_cases h2 : data.any (fun m => m.fields.length = 0) = true
        · right
          rcases List.any_eq_true.mp h2 with ⟨m, hm, hm0⟩
          exact ⟨m, hm, List.length_eq_zero.mp (by simpa using hm0)⟩
        · rw [if_neg h2] at he
          simp at he
    · rintro (rfl | ⟨m, hm, hm0⟩)
      · exact ⟨.valueError (emptySheetMsg title), by simp⟩
      · by_cases h1 : data.length < 1
        · exact ⟨.valueError (emptySheetMsg title), by rw [if_pos h1]⟩
        · have h2 : data.any (fun m => m.fields.length = 0) = true :=
            List.any_eq_true.mpr ⟨m, hm, by simp [hm0]⟩
          exact ⟨.valueError "Model has not got any properties",
            by rw [if_neg h1, if_pos h2]⟩
  · intro comp hcomp
    by_cases h1 : data.length < 1
    · rw [if_pos h1] at hcomp
      simp at hcomp
    · rw [if_neg h1] at hcomp
      by_cases h2 : data.any (fun m => m.fields.length = 0) = true
      · rw [if_pos h2] at hcomp
        simp at hcomp
      · rw [if_neg h2] at hcomp
        injection hcomp with h3
        rw [← h3]
        exact ⟨rfl, rfl, rfl⟩

/-- Closed witness: the empty batch raises, through
`composition_init_spec`. -/
theorem composition_init_spec_witness :
    ∃ e, Composition.init ([] : List Model) "Person" { } = .error e :=
  (composition_init_spec [] "Person" { }).1.mpr (Or.inl rfl)

/-- C8: the claim says a multi-sheet schema with a scalar field exports
that field as a one-row sheet.  The schema `{title : str, items : [Item]}`
does classify as a collection, but `sheets_from_model` passes the raw
string `"foo"` to `Composition.__init__`, which iterates it and reads
`__fields__` off a character: export raises `AttributeError` instead of
producing two sheets. -/
theorem collection_sheets_scalar_crash :
    from_model [titleField, itemsField] = .ok .collection ∧
    sheets_from_model scalarParent { } =
      .error (.attributeError "str object has no attribute fields") := by
  decide

/-- C9: each exported column's width is `max 5 ⌈0.93 · L⌉` where `L` is
the maximum length over the column's string-valued cells (`0` when the
column has no string cell, non-strings never contributing); a longest
string of length `10` gives width `10` and one of length `4` gives
width `5`. -/
theorem calc_column_widths_spec :
    (∀ (m0 : Model) (rest : List Model),
      calc_column_widths (m0 :: rest) =
        (m0.fields.map (fun f => f.name)).map
          (fun key => max 5 (ceil93 (maxStrLenForKey (m0 :: rest) key)))) ∧
    (∀ (data : List Model) (key : String) (entry : Model) (s : String),
      entry ∈ data → dictGet entry.row key = some (.str s) →
      s.length ≤ maxStrLenForKey data key) ∧
    (∀ (data : List Model) (key : String),
      maxStrLenForKey data key = 0 ∨
        ∃ entry ∈ data, ∃ s, dictGet entry.row key = some (.str s) ∧
          s.length = maxStrLenForKey data key) ∧
    max 5 (ceil93 10) = 10 ∧ max 5 (ceil93 4) = 5 := by
  refine ⟨?_, ?_, ?_, by decide, by decide⟩
  · intro m0 rest
    rw [calc_column_widths]
    refine List.map_congr_left ?_
    intro key _
    show (if ceil93 (maxStrLenForKey (m0 :: rest) key) > 5
      then ceil93 (maxStrLenForKey (m0 :: rest) key) else 5) = _
    split <;> omega
  · intro data key entry s he hs
    exact le_maxStrLen data key entry s he hs
  · intro data key
    exact maxStrLen_attained data key

/-- Closed witness: a one-column sheet whose longest (only) string has
length 10 gets width 10, through `calc_column_widths_spec`. -/
theorem calc_column_widths_spec_witness :
    calc_column_widths [helloModel] = [10] ∧
    ("HelloWorld".length ≤ maxStrLenForKey [helloModel] "name") := by
  constructor
  · rw [calc_column_widths_spec.1 helloModel []]
    decide
  · exact calc_column_widths_spec.2.1 _ "name" _ "HelloWorld"
      (List.mem_singleton.mpr rfl) (by decide)

/-- C10 (counterexample): the claim says any multi-sheet schema in which
some field's alias differs from its name raises a key-lookup error during
import.  With names `a, b` and aliases swapped (`b, a`), every alias is
still a declared name, so the type resolution of
`CollectionComposition.workbook_to_model` succeeds — returning the other
field's type for each sheet — although both aliases differ from their
field's name. -/
theorem resolve_sheet_types_swapped_ok :
    resolveSheetTypes
        [{ name := "a", alias_ := "b", field_type := FieldType.int },
          { name := "b", alias_ := "a", field_type := FieldType.str }] =
      .ok [("b", FieldType.str), ("a", FieldType.int)] ∧
    (({ name := "a", alias_ := "b", field_type := FieldType.int } : PyField).alias_ ==
      ({ name := "a", alias_ := "b", field_type := FieldType.int } : PyField).name) =
        false := by
  decide

/-- C10 (amended): the import loop indexes the name-keyed field map with
each field's alias; it locates a type for every field precisely when
every alias occurs among the declared names, any failure is a `KeyError`,
and when every field's alias equals its (distinct) name the resolved type
is the field's own. -/
theorem resolve_sheet_types_membership (fields : List PyField) :
    ((∃ r, resolveSheetTypes fields = .ok r) ↔
      ∀ f ∈ fields, ∃ q ∈ fields, q.name = f.alias_) ∧
    (∀ e, resolveSheetTypes fields = .error e → ∃ k, e = .keyError k) ∧
    ((∀ f ∈ fields, f.alias_ = f.name) →
      (fields.map (fun f => f.name)).Nodup →
      resolveSheetTypes fields = .ok (fields.map (fun f => (f.alias_, f.field_type)))) :=
  ⟨resolveAux_ok_iff fields fields,
    fun e he => resolveAux_error_shape fields fields e he,
    fun h1 h2 => resolveAux_id fields h2 h1 fields (fun _ hf => hf)⟩

/-- Closed witness for the amended C10 theorem: identity aliases resolve
to the fields' own types, and a two-field schema with matching aliases
resolves successfully. -/
theorem resolve_sheet_types_membership_witness :
    resolveSheetTypes [{ name := "a", alias_ := "a", field_type := FieldType.int }] =
      .ok [("a", FieldType.int)] ∧
    (∃ r, resolveSheetTypes [{ name := "x", alias_ := "x" },
      { name := "y", alias_ := "y" }] = .ok r) := by
  constructor
  · exact (resolve_sheet_types_membership _).2.2 (by decide) (by decide)
  · exact (resolve_sheet_types_membership _).1.mpr (by decide)

end PydanticXlsx
